import Mathlib

/-
Verification of `profile.py`, a CloudLab provisioning profile for
NVIDIA GH200 (`nvidiagh`) nodes.  The profile declares two parameters
(node count, disk image URN), builds N node descriptors each carrying a
bootstrap install script and two Execute services, joins them with a LAN
when N > 1, and prints the resulting request RSpec.

The embedding below mirrors the source: the inlined `SETUP_BASH` shell
script is modelled as a list of statements (simple commands, optionally
suffixed `|| true`, and `command -v` existence checks), and the request
construction is modelled by explicit state passing.
-/

namespace NvidiaGH

/-! ## Shallow embedding of the bootstrap shell script -/

/-- A simple shell command; `orTrue` records a trailing `|| true` guard. -/
structure SimpleCmd where
  text : String
  orTrue : Bool
deriving DecidableEq

/-- A top-level statement of the bootstrap script: a simple command, an
`if command -v p; then ...; else ...; fi` existence check, or an
`if ! command -v p; then ...; fi` negative existence check. -/
inductive Stmt where
  | cmd : SimpleCmd → Stmt
  | ifExists : String → List SimpleCmd → List SimpleCmd → Stmt
  | ifNotExists : String → List SimpleCmd → Stmt
deriving DecidableEq

/-- The `SETUP_BASH` script of `profile.py` (run under `set -euxo pipefail`),
statement by statement.  Multi-line shell continuations are joined; an
`a && b && c` chain at top level is flattened into consecutive unguarded
commands, which has the same abort behaviour under `set -e`. -/
def SETUP_BASH : List Stmt :=
  [ Stmt.cmd ⟨"echo \"[INFO] Node: $(hostname)  Arch: $(uname -m)  Kernel: $(uname -r)\"", false⟩
  , Stmt.cmd ⟨"sudo apt-get update -y", false⟩
  , Stmt.cmd ⟨"sudo apt-get install -y git curl wget ca-certificates gnupg lsb-release pciutils net-tools htop jq build-essential", false⟩
  , Stmt.ifExists "nvidia-smi"
      [ ⟨"echo \"[INFO] nvidia-smi found:\"", false⟩
      , ⟨"nvidia-smi", true⟩ ]
      [ ⟨"echo \"[WARN] nvidia-smi not found. Please use a GPU-enabled image or install driver manually.\"", false⟩ ]
  , Stmt.ifNotExists "docker"
      [ ⟨"echo \"[INFO] Installing Docker...\"", false⟩
      , ⟨"sudo apt-get remove -y docker docker-engine docker.io containerd runc", true⟩
      , ⟨"sudo apt-get install -y apt-transport-https software-properties-common", false⟩
      , ⟨"curl -fsSL https://download.docker.com/linux/ubuntu/gpg | sudo gpg --dearmor -o /usr/share/keyrings/docker.gpg", false⟩
      , ⟨"echo \"deb [arch=$(dpkg --print-architecture) signed-by=/usr/share/keyrings/docker.gpg] https://download.docker.com/linux/ubuntu $(. /etc/os-release; echo $UBUNTU_CODENAME) stable\" | sudo tee /etc/apt/sources.list.d/docker.list > /dev/null", false⟩
      , ⟨"sudo apt-get update -y", false⟩
      , ⟨"sudo apt-get install -y docker-ce docker-ce-cli containerd.io", false⟩
      , ⟨"sudo usermod -aG docker $USER", true⟩ ]
  , Stmt.cmd ⟨"echo \"[INFO] Installing NVIDIA Container Toolkit...\"", false⟩
  , Stmt.cmd ⟨"distribution=$(. /etc/os-release; echo $ID$VERSION_ID)", false⟩
  , Stmt.cmd ⟨"curl -fsSL https://nvidia.github.io/libnvidia-container/gpgkey | sudo gpg --dearmor -o /usr/share/keyrings/nvidia-container-toolkit.gpg", false⟩
  , Stmt.cmd ⟨"curl -fsSL https://nvidia.github.io/libnvidia-container/$distribution/libnvidia-container.list | sed \x27s#deb https://#deb [signed-by=/usr/share/keyrings/nvidia-container-toolkit.gpg] https://#g\x27 | sudo tee /etc/apt/sources.list.d/nvidia-container-toolkit.list", false⟩
  , Stmt.cmd ⟨"sudo apt-get update -y", false⟩
  , Stmt.cmd ⟨"sudo apt-get install -y nvidia-container-toolkit", false⟩
  , Stmt.cmd ⟨"sudo nvidia-ctk runtime configure --runtime=docker", false⟩
  , Stmt.cmd ⟨"sudo systemctl restart docker", true⟩
  , Stmt.ifExists "nvidia-smi"
      [ ⟨"sudo nvidia-smi -pm 1", true⟩
      , ⟨"echo \"[INFO] Docker + GPU test\"", false⟩
      , ⟨"docker run --rm --gpus all nvidia/cuda:12.4.1-base-ubuntu22.04 nvidia-smi", true⟩ ]
      []
  , Stmt.cmd ⟨"echo \"[DONE] Setup complete.\"", false⟩ ]

/-- Under `set -e`, a simple command aborts the script iff it fails and
carries no `|| true` guard. -/
def cmdFatal (fails : String → Bool) (c : SimpleCmd) : Bool :=
  !c.orTrue && fails c.text

/-- Whether a statement aborts the script, given which programs are
available (`avail`, for the `command -v` checks) and which commands fail. -/
def stmtFatal (avail fails : String → Bool) : Stmt → Bool
  | Stmt.cmd c => cmdFatal fails c
  | Stmt.ifExists p t e =>
      if avail p then t.any (cmdFatal fails) else e.any (cmdFatal fails)
  | Stmt.ifNotExists p t =>
      if avail p then false else t.any (cmdFatal fails)

/-- Whether a run of the script hits a fatal (unsuppressed) error. -/
def scriptFatal (avail fails : String → Bool) (s : List Stmt) : Bool :=
  s.any (stmtFatal avail fails)

/-- A statement is "guarded" in the sense of the spec when it is a simple
command ending in `|| true`, or an existence-check conditional. -/
def stmtGuarded : Stmt → Bool
  | Stmt.cmd c => c.orTrue
  | Stmt.ifExists _ _ _ => true
  | Stmt.ifNotExists _ _ => true

/-- The texts a simple command contributes to the set of commands that must
succeed: none when it is guarded by `|| true`. -/
def cmdMustSucceed (c : SimpleCmd) : List String :=
  if c.orTrue then [] else [c.text]

/-- The command texts of a statement that must succeed for the run not to
abort, under availability `avail`. -/
def stmtMustSucceed (avail : String → Bool) : Stmt → List String
  | Stmt.cmd c => cmdMustSucceed c
  | Stmt.ifExists p t e =>
      if avail p then t.flatMap cmdMustSucceed else e.flatMap cmdMustSucceed
  | Stmt.ifNotExists p t =>
      if avail p then [] else t.flatMap cmdMustSucceed

/-- All command texts that must succeed for a run of the script. -/
def scriptMustSucceed (avail : String → Bool) (s : List Stmt) : List String :=
  s.flatMap (stmtMustSucceed avail)

/-- All simple commands syntactically occurring in a statement. -/
def allCmds : Stmt → List SimpleCmd
  | Stmt.cmd c => [c]
  | Stmt.ifExists _ t e => t ++ e
  | Stmt.ifNotExists _ t => t

/-- Substring test: `pat` occurs contiguously in `s`. -/
def containsSub (s pat : String) : Bool :=
  (s.toList.tails).any (fun t => pat.toList.isPrefixOf t)

/-- Whether some command of the script mentions `pat`. -/
def scriptMentions (s : List Stmt) (pat : String) : Bool :=
  (s.flatMap allCmds).any (fun c => containsSub c.text pat)

/-! ## Request data model (geni.rspec object tree, as used by profile.py) -/

/-- A post-boot service attached to a node: the Emulab `InstallScript`
extension (with its `common` flag and the script), or a `pg.Execute`
command (shell, command string). -/
inductive Service where
  | installScript : Bool → List Stmt → Service
  | execute : String → String → Service
deriving DecidableEq

/-- An interface created by `n.addInterface(name)`; it belongs to the node
it was created on, recorded in `node`. -/
structure NodeIface where
  name : String
  node : String
deriving DecidableEq

/-- A `RawPC` node descriptor as configured by `add_node`. -/
structure RawPC where
  name : String
  hardware_type : String
  disk_image : String
  services : List Service
  interfaces : List NodeIface
deriving DecidableEq

/-- A `req.Link` LAN descriptor. -/
structure Link where
  name : String
  best_effort : Bool
  vlan_tagging : Bool
  interfaces : List NodeIface
deriving DecidableEq

/-- The request RSpec object tree: node descriptors and LAN descriptors. -/
structure Request where
  nodes : List RawPC
  links : List Link
deriving DecidableEq

/-! ## Parameters -/

/-- An integer `portal.Parameter` declaration. -/
structure IntParameter where
  name : String
  description : String
  longDescription : String
  defaultValue : Int
  min : Int
  max : Int

/-- A string `portal.Parameter` declaration. -/
structure StringParameter where
  name : String
  description : String
  longDescription : String
  defaultValue : String

/-- The `nodes` parameter declaration (profile.py lines 27-32). -/
def nodesParameter : IntParameter :=
  { name := "nodes"
  , description := "Number of nodes"
  , longDescription := "How many nvidiagh nodes to allocate"
  , defaultValue := 1
  , min := 1
  , max := 16 }

/-- The `image_urn` parameter declaration (profile.py lines 34-40). -/
def imageParameter : StringParameter :=
  { name := "image_urn"
  , description := "Disk image URN"
  , longDescription := "Leave default unless you have a custom image"
  , defaultValue := "urn:publicid:IDN+utah.cloudlab.us+image+Canonical:ubuntu-22.04" }

/-- Modelled from the spec: `pc.bindParameter` of the external `geni.portal`
library (not under src/) resolves an integer parameter to the user-supplied
value when one is given, and to the declared `defaultValue` otherwise. -/
def bindIntParameter (p : IntParameter) (supplied : Option Int) : Int :=
  supplied.getD p.defaultValue

/-- Modelled from the spec: `pc.bindParameter` of the external `geni.portal`
library (not under src/) resolves a string parameter to the user-supplied
value when one is given, and to the declared `defaultValue` otherwise. -/
def bindStringParameter (p : StringParameter) (supplied : Option String) : String :=
  supplied.getD p.defaultValue

/-- Modelled from the spec: the "range/type checks on the two parameters"
performed by `pc.verifyParameters` of the external `geni.portal` library
(not under src/): an integer parameter value is accepted iff it lies within
the declared `[min, max]` bounds. -/
def checkIntParameter (p : IntParameter) (v : Int) : Bool :=
  p.min ≤ v && v ≤ p.max

/-- `pc.verifyParameters()` as it applies to this profile: the only bounded
parameter is `nodes`. -/
def verifyParameters (nodesVal : Int) : Bool :=
  checkIntParameter nodesParameter nodesVal

/-! ## Request construction (profile.py lines 114-147) -/

/-- Command of the first `pg.Execute` service (profile.py line 121). -/
def lsblkCommand : String :=
  "echo \x27[INFO] Local NVMe:\x27; lsblk -o NAME,SIZE,MODEL || true"

/-- Command of the sysctl-tuning `pg.Execute` service (profile.py
lines 124-131). -/
def sysctlCommand : String :=
  "\nsudo bash -c \x27cat >/etc/sysctl.d/99-dl-tuning.conf <<EOF\nfs.inotify.max_user_watches=524288\nfs.inotify.max_user_instances=1024\nvm.max_map_count=1048576\nEOF\x27\nsudo sysctl --system || true\n"

/-- `add_node(idx)`: a `RawPC` named `node{idx+1}` of hardware type
`nvidiagh`, with the bound image, the `InstallScript(common=True, SETUP_BASH)`
service and the two `pg.Execute` services. -/
def add_node (image_urn : String) (idx : Nat) : RawPC :=
  { name := "node" ++ toString (idx + 1)
  , hardware_type := "nvidiagh"
  , disk_image := image_urn
  , services :=
      [ Service.installScript true SETUP_BASH
      , Service.execute "bash" lsblkCommand
      , Service.execute "bash" sysctlCommand ]
  , interfaces := [] }

/-- The main construction: `add_node(i)` for `i in range(N)`, then, when
`N > 1`, a LAN with `best_effort` and `vlan_tagging`, to which each node
contributes one interface.  The interface name uses the loop variable `i`
leaked from the node-construction loop, whose final value is `N - 1`. -/
def buildRequest (image_urn : String) (N : Nat) : Request :=
  let ns := (List.range N).map (add_node image_urn)
  if 1 < N then
    let leakedI := N - 1
    let ns2 := ns.map (fun n =>
      { n with interfaces :=
          n.interfaces ++ [NodeIface.mk ("if" ++ toString leakedI) n.name] })
    let lan : Link :=
      { name := "lan"
      , best_effort := true
      , vlan_tagging := true
      , interfaces := ns.map (fun n => NodeIface.mk ("if" ++ toString leakedI) n.name) }
    { nodes := ns2, links := [lan] }
  else
    { nodes := ns, links := [] }

/-- An output event of the profile run; `printRSpec` models
`pc.printRequestRSpec(req)` serializing the request to standard output. -/
inductive OutputEvent where
  | printRSpec : Request → OutputEvent
deriving DecidableEq

/-- The whole profile run: bind the two parameters, verify them
(`pc.verifyParameters` aborts the run on failure, modelled as `none`),
build the request, then print it exactly once. -/
def runProfile (suppliedNodes : Option Int) (suppliedImage : Option String) :
    Option (Request × List OutputEvent) :=
  let nodesVal := bindIntParameter nodesParameter suppliedNodes
  let imageVal := bindStringParameter imageParameter suppliedImage
  if verifyParameters nodesVal then
    let r := buildRequest imageVal nodesVal.toNat
    some (r, [OutputEvent.printRSpec r])
  else
    none

/-! ## Helper lemmas -/

lemma cmds_not_fatal (fails : String → Bool) (l : List SimpleCmd)
    (h : ∀ t ∈ l.flatMap cmdMustSucceed, fails t = false) :
    l.any (cmdFatal fails) = false := by
  induction l with
  | nil => rfl
  | cons c cs ih =>
    have hc : cmdFatal fails c = false := by
      by_cases hg : c.orTrue
      · simp [cmdFatal, hg]
      · have ht : c.text ∈ (c :: cs).flatMap cmdMustSucceed := by
          rw [List.flatMap_cons]
          exact List.mem_append_left _ (by simp [cmdMustSucceed, hg])
        simp [cmdFatal, hg, h c.text ht]
    have hcs : cs.any (cmdFatal fails) = false := by
      refine ih (fun t ht => h t ?_)
      rw [List.flatMap_cons]
      exact List.mem_append_right _ ht
    simp [List.any_cons, hc, hcs]

lemma stmt_not_fatal (avail fails : String → Bool) (st : Stmt)
    (h : ∀ t ∈ stmtMustSucceed avail st, fails t = false) :
    stmtFatal avail fails st = false := by
  cases st with
  | cmd c =>
    by_cases hg : c.orTrue
    · simp [stmtFatal, cmdFatal, hg]
    · have ht : c.text ∈ stmtMustSucceed avail (Stmt.cmd c) := by
        simp [stmtMustSucceed, cmdMustSucceed, hg]
      simp [stmtFatal, cmdFatal, hg, h c.text ht]
  | ifExists p t e =>
    by_cases hp : avail p = true
    · have := cmds_not_fatal fails t
        (fun x hx => h x (by simpa [stmtMustSucceed, hp] using hx))
      simp [stmtFatal, hp, this]
    · have hp' : avail p = false := by
        cases hv : avail p
        · rfl
        · exact absurd hv hp
      have := cmds_not_fatal fails e
        (fun x hx => h x (by simpa [stmtMustSucceed, hp'] using hx))
      simp [stmtFatal, hp', this]
  | ifNotExists p t =>
    by_cases hp : avail p = true
    · simp [stmtFatal, hp]
    · have hp' : avail p = false := by
        cases hv : avail p
        · rfl
        · exact absurd hv hp
      have := cmds_not_fatal fails t
        (fun x hx => h x (by simpa [stmtMustSucceed, hp'] using hx))
      simp [stmtFatal, hp', this]

lemma script_not_fatal (avail fails : String → Bool) (s : List Stmt)
    (h : ∀ t ∈ scriptMustSucceed avail s, fails t = false) :
    scriptFatal avail fails s = false := by
  induction s with
  | nil => rfl
  | cons st rest ih =>
    have h1 : stmtFatal avail fails st = false := by
      refine stmt_not_fatal avail fails st (fun x hx => h x ?_)
      rw [scriptMustSucceed, List.flatMap_cons]
      exact List.mem_append_left _ hx
    have h2 : scriptFatal avail fails rest = false := by
      refine ih (fun x hx => h x ?_)
      rw [scriptMustSucceed, List.flatMap_cons]
      exact List.mem_append_right _ hx
    simp only [scriptFatal, List.any_cons, h1, Bool.false_or]
    exact h2

lemma node_names_nodup (N : Nat) (h : N ≤ 16) :
    ((List.range N).map (fun i => "node" ++ toString (i + 1))).Nodup := by
  interval_cases N <;> decide

set_option maxRecDepth 100000 in
lemma sysctl_in_sysctlCommand : containsSub sysctlCommand "sysctl" = true := by
  decide

/-! ## Claim theorems -/

/-- C3: for every node count accepted by parameter validation, the request
contains exactly that many node descriptors. -/
theorem C3_node_count (image : String) (n : Int)
    (h : verifyParameters n = true) :
    (buildRequest image n.toNat).nodes.length = n.toNat := by
  simp only [buildRequest]
  split <;> simp

/-- Witness for C3 at node count 5. -/
theorem C3_witness :
    (buildRequest "img3" ((5 : Int)).toNat).nodes.length = ((5 : Int)).toNat :=
  C3_node_count "img3" 5 (by decide)

/-- C4: parameter validation accepts an integer node count iff it lies in
[1, 16]. -/
theorem C4_validation_range (n : Int) :
    verifyParameters n = true ↔ (1 ≤ n ∧ n ≤ 16) := by
  simp [verifyParameters, checkIntParameter, nodesParameter]

/-- C9: the node descriptors are named `node1` .. `nodeN`, consecutively in
construction order. -/
theorem C9_node_names (image : String) (N : Nat) :
    (buildRequest image N).nodes.map RawPC.name
      = (List.range N).map (fun i => "node" ++ toString (i + 1)) := by
  simp only [buildRequest]
  split <;> simp [add_node, List.map_map, Function.comp]

/-- C10: with no user-supplied values, the node count resolves to 1 and the
disk image to the Ubuntu 22.04 URN. -/
theorem C10_defaults :
    bindIntParameter nodesParameter none = 1
    ∧ bindStringParameter imageParameter none
        = "urn:publicid:IDN+utah.cloudlab.us+image+Canonical:ubuntu-22.04" :=
  ⟨rfl, rfl⟩

/-- C2 counterexample: the bootstrap script does NOT guard every step: the
top-level `sudo apt-get update -y` carries no `|| true` and sits in no
existence check, and under `set -euxo pipefail` a failure of that command
aborts the script (with every program available, a run in which exactly
that command fails is fatal). -/
theorem C2_counterexample :
    SETUP_BASH.all stmtGuarded = false
    ∧ scriptFatal (fun _ => true)
        (fun t => t == "sudo apt-get update -y") SETUP_BASH = true := by
  constructor
  · rfl
  · rfl

/-- C2 (amended): failures of guarded steps (commands ending in `|| true`,
and commands skipped by their existence check) are suppressed: whenever
every unguarded command that actually executes succeeds, the script run is
not fatal — but the unguarded package-manager, toolkit and echo steps can
still abort it. -/
theorem C2_guard_suppression (avail fails : String → Bool)
    (h : ∀ t ∈ scriptMustSucceed avail SETUP_BASH, fails t = false) :
    scriptFatal avail fails SETUP_BASH = false :=
  script_not_fatal avail fails SETUP_BASH h

/-- Witness for C2 (amended): a run in which no command fails is not
fatal. -/
theorem C2_witness :
    scriptFatal (fun _ => true) (fun _ => false) SETUP_BASH = false :=
  C2_guard_suppression (fun _ => true) (fun _ => false) (fun _ _ => rfl)

/-- C1: the request carries a LAN descriptor iff the node count exceeds 1;
when present the LAN is unique and carries exactly N interfaces, one owned
by each of the N (distinctly named) nodes, in node order. -/
theorem C1_lan_iff_multinode (image : String) (N : Nat)
    (h1 : 1 ≤ N) (h16 : N ≤ 16) :
    ((buildRequest image N).links.length = if 1 < N then 1 else 0)
    ∧ (buildRequest image N).links.all
        (fun l => decide (l.interfaces.length = N
          ∧ l.interfaces.map NodeIface.node
              = (buildRequest image N).nodes.map RawPC.name
          ∧ (l.interfaces.map NodeIface.node).Nodup)) = true := by
  by_cases hN : 1 < N
  · constructor
    · simp only [buildRequest]
      rw [if_pos hN, if_pos hN]
      rfl
    · simp only [buildRequest]
      rw [if_pos hN]
      simp only [List.all_cons, List.all_nil, Bool.and_true,
        decide_eq_true_eq]
      refine ⟨by simp, by simp [add_node, List.map_map, Function.comp], ?_⟩
      have : ((List.range N).map (add_node image)).map
          (NodeIface.node ∘ fun n => NodeIface.mk ("if" ++ toString (N - 1)) n.name)
          = (List.range N).map (fun i => "node" ++ toString (i + 1)) := by
        simp [add_node, List.map_map, Function.comp]
      rw [List.map_map, this]
      exact node_names_nodup N h16
  · constructor
    · simp only [buildRequest]
      rw [if_neg hN, if_neg hN]
      rfl
    · simp only [buildRequest]
      rw [if_neg hN]
      rfl

/-- Witness for C1 at node count 3. -/
theorem C1_witness :
    ((buildRequest "img1" 3).links.length = if 1 < 3 then 1 else 0)
    ∧ (buildRequest "img1" 3).links.all
        (fun l => decide (l.interfaces.length = 3
          ∧ l.interfaces.map NodeIface.node
              = (buildRequest "img1" 3).nodes.map RawPC.name
          ∧ (l.interfaces.map NodeIface.node).Nodup)) = true :=
  C1_lan_iff_multinode "img1" 3 (by decide) (by decide)

/-- Whether a service is a `pg.Execute` whose command invokes `sysctl`. -/
def isSysctlExecute : Service → Bool
  | Service.execute _ cmdText => containsSub cmdText "sysctl"
  | Service.installScript _ _ => false

set_option maxRecDepth 100000 in
/-- C5 counterexample: the attached bootstrap script does not perform all
four actions itself — no command of `SETUP_BASH` mentions `sysctl`, so the
sysctl tunings are not applied by that one script. -/
theorem C5_counterexample :
    ¬ (scriptMentions SETUP_BASH "docker-ce" = true
       ∧ scriptMentions SETUP_BASH "nvidia-container-toolkit" = true
       ∧ scriptMentions SETUP_BASH "nvidia-smi -pm 1" = true
       ∧ scriptMentions SETUP_BASH "sysctl" = true) := by
  intro h
  exact absurd h.2.2.2 (by decide)

set_option maxRecDepth 100000 in
/-- C5 (amended): the bootstrap script installs Docker, installs the NVIDIA
Container Toolkit and enables GPU persistence mode, but the sysctl tunings
are applied by a separate `pg.Execute` service that is attached to every
node alongside the script. -/
theorem C5_bootstrap_actions (image : String) (N : Nat)
    (h : verifyParameters (N : Int) = true) :
    scriptMentions SETUP_BASH "docker-ce" = true
    ∧ scriptMentions SETUP_BASH "nvidia-container-toolkit" = true
    ∧ scriptMentions SETUP_BASH "nvidia-smi -pm 1" = true
    ∧ scriptMentions SETUP_BASH "sysctl" = false
    ∧ (buildRequest image N).nodes.all
        (fun nd => nd.services.any isSysctlExecute) = true := by
  refine ⟨by decide, by decide, by decide, by decide, ?_⟩
  simp only [buildRequest]
  split <;>
    simp [add_node, isSysctlExecute, sysctl_in_sysctlCommand, List.all_eq_true]

/-- Witness for C5 (amended) at node count 1. -/
theorem C5_witness :
    scriptMentions SETUP_BASH "docker-ce" = true
    ∧ scriptMentions SETUP_BASH "nvidia-container-toolkit" = true
    ∧ scriptMentions SETUP_BASH "nvidia-smi -pm 1" = true
    ∧ scriptMentions SETUP_BASH "sysctl" = false
    ∧ (buildRequest "img5" 1).nodes.all
        (fun nd => nd.services.any isSysctlExecute) = true :=
  C5_bootstrap_actions "img5" 1 (by decide)

/-- C6: under any accepted parameter valuation, every node descriptor has
hardware class `nvidiagh`, the bound disk image, and the same three-service
list (the bootstrap install script and the two Execute commands). -/
theorem C6_nodes_identical (image : String) (N : Nat)
    (h : verifyParameters (N : Int) = true) :
    (buildRequest image N).nodes.all
      (fun nd => decide (nd.hardware_type = "nvidiagh"
        ∧ nd.disk_image = image
        ∧ nd.services =
            [ Service.installScript true SETUP_BASH
            , Service.execute "bash" lsblkCommand
            , Service.execute "bash" sysctlCommand ])) = true := by
  simp only [buildRequest]
  split <;> simp [add_node, List.all_eq_true]

/-- Witness for C6 at node count 2. -/
theorem C6_witness :
    (buildRequest "img6" 2).nodes.all
      (fun nd => decide (nd.hardware_type = "nvidiagh"
        ∧ nd.disk_image = "img6"
        ∧ nd.services =
            [ Service.installScript true SETUP_BASH
            , Service.execute "bash" lsblkCommand
            , Service.execute "bash" sysctlCommand ])) = true :=
  C6_nodes_identical "img6" 2 (by decide)

/-- C7: for every accepted parameter valuation the run succeeds and its
output trace is exactly one `printRSpec` event, carrying the fully built
request (all nodes and the optional LAN already constructed). -/
theorem C7_single_print (sn : Option Int) (si : Option String)
    (h : verifyParameters (bindIntParameter nodesParameter sn) = true) :
    runProfile sn si =
      some (buildRequest (bindStringParameter imageParameter si)
              (bindIntParameter nodesParameter sn).toNat,
            [OutputEvent.printRSpec
               (buildRequest (bindStringParameter imageParameter si)
                  (bindIntParameter nodesParameter sn).toNat)]) := by
  simp [runProfile, h]

/-- Witness for C7 with both parameters left at their defaults. -/
theorem C7_witness :
    runProfile none none =
      some (buildRequest (bindStringParameter imageParameter none)
              (bindIntParameter nodesParameter none).toNat,
            [OutputEvent.printRSpec
               (buildRequest (bindStringParameter imageParameter none)
                  (bindIntParameter nodesParameter none).toNat)]) :=
  C7_single_print none none (by decide)

/-- C8: for every node count above 1, every interface of the LAN carries the
same name `if{N-1}`, built from the loop variable leaked out of the
node-construction loop. -/
theorem C8_iface_names_leaked (image : String) (N : Nat) (h : 1 < N) :
    (buildRequest image N).links.all
      (fun l => l.interfaces.all
        (fun ifc => decide (ifc.name = "if" ++ toString (N - 1)))) = true := by
  simp only [buildRequest]
  rw [if_pos h]
  simp [List.all_eq_true]

/-- Witness for C8 at node count 3. -/
theorem C8_witness :
    (buildRequest "img8" 3).links.all
      (fun l => l.interfaces.all
        (fun ifc => decide (ifc.name = "if" ++ toString (3 - 1)))) = true :=
  C8_iface_names_leaked "img8" 3 (by decide)

end NvidiaGH
